import Mathlib

/-!
A shallow embedding of the streaming_xtts repository (streaming_tts.py and
streaming_tts_server.py) together with proofs about the claims of its
specification.

Modelling conventions:
* Python `str` is Lean `String`; Python lists are Lean `List`s.
* Python numbers appearing in the embedded code paths are small integers and
  exact binary fractions; arithmetic on them is embedded into `ℚ`
  (`total_length / excess_factor_int`, `0.5 / speed * framerate`), with
  integer truncation/ceiling made explicit.
* The Python `while` loop of the intelligent rebundler is embedded as a
  fuel-indexed structural recursion (`none` = fuel exhausted); the theorem
  for the termination claim shows that fuel `2 * |sentences| + 1` always
  suffices, so the fuelled function is total on the fuel used by
  `rebundle_sentences_intelligently_ahdhering_to_TTS_limits`.
* Fallible Python code (a `ZeroDivisionError`, an `UnboundLocalError`, an
  `IndexError`) is embedded with `Option`/`Except`.
-/

set_option maxHeartbeats 1000000
set_option maxRecDepth 100000

unseal Rat.mul Rat.inv Rat.add Rat.sub

namespace StreamingXtts

/-- `TTS_CHARACTER_LIMIT = 255`, the per-call character limit supported by XTTS2
(constant at the top of streaming_tts_server.py). -/
def TTS_CHARACTER_LIMIT : ℕ := 255

/-- `SILENCE_DURATION_BETWEEN_CONSECTIVE_SPEECHES = 0.5` (seconds), from
streaming_tts_server.py. -/
def SILENCE_DURATION_BETWEEN_CONSECTIVE_SPEECHES : ℚ := 1 / 2

/-- The `while sentence_index < len(sentences)` loop of
`MyRequestHandler._rebundle_sentences_intelligently_ahdhering_to_TTS_limits`
(streaming_tts_server.py lines 245-272), embedded with explicit fuel.

State passed through the loop: `sentence_index`, `current_bundle`,
`running_length`, `rebundled` (= `rebundled_sentences`).  The loop body has
been flattened into its four control-flow paths:

1. the sentence fits (`running_length_with_sentence <= TTS_CHARACTER_LIMIT`):
   it is appended as `f" {sentence}"`, the index advances, and the bundle is
   closed when `running_length >= target_length`;
   (1a. if after this update `running_length == 0` still holds while the
   bundle is full — only possible when `target_length <= 0` — the Python
   `running_length == 0 and bundle_is_full` guard fires a second append of
   the same sentence and a second index increment; this path is faithfully
   kept although it is unreachable for the targets the caller computes);
2. the sentence does not fit and `running_length == 0`: the oversized
   sentence is appended anyway and the bundle closed;
3. the sentence does not fit and `running_length != 0`: the current bundle is
   closed and the index does not advance.

The function returns the final `(rebundled_sentences, current_bundle)` pair;
the trailing non-empty `current_bundle` is flushed by the caller.  `none`
means the fuel ran out (never happens with the fuel the caller supplies, see
`rebundleLoop_fuel_sufficient`). -/
def rebundleLoop (sentences : List String) (target_length : ℚ) :
    ℕ → ℕ → String → ℕ → List String → Option (List String × String)
  | 0, _, _, _, _ => none
  | fuel + 1, sentence_index, current_bundle, running_length, rebundled =>
    if h : sentence_index < sentences.length then
      let sentence := sentences.get ⟨sentence_index, h⟩
      let running_length_with_sentence := running_length + sentence.length
      if running_length_with_sentence ≤ TTS_CHARACTER_LIMIT then
        if target_length ≤ (running_length_with_sentence : ℚ) then
          if running_length_with_sentence = 0 then
            -- path 1a (double append; unreachable when 0 < target_length)
            rebundleLoop sentences target_length fuel (sentence_index + 2) "" 0
              (rebundled ++ [current_bundle ++ " " ++ sentence ++ " " ++ sentence])
          else
            -- path 1, bundle full
            rebundleLoop sentences target_length fuel (sentence_index + 1) "" 0
              (rebundled ++ [current_bundle ++ " " ++ sentence])
        else
          -- path 1, bundle not yet full
          rebundleLoop sentences target_length fuel (sentence_index + 1)
            (current_bundle ++ " " ++ sentence) running_length_with_sentence rebundled
      else
        if running_length = 0 then
          -- path 2: a single sentence exceeding the limit is emitted anyway
          rebundleLoop sentences target_length fuel (sentence_index + 1) "" 0
            (rebundled ++ [current_bundle ++ " " ++ sentence])
        else
          -- path 3: close the current bundle, do not advance
          rebundleLoop sentences target_length fuel sentence_index "" 0
            (rebundled ++ [current_bundle])
    else
      some (rebundled, current_bundle)

/-- `MyRequestHandler._rebundle_sentences_intelligently_ahdhering_to_TTS_limits`
(streaming_tts_server.py lines 212-277).  `none` models the Python
`ZeroDivisionError` raised by `total_length / excess_factor_int` when
`excess_factor_int == 0` (i.e. when every sentence is empty). -/
def rebundle_sentences_intelligently_ahdhering_to_TTS_limits
    (sentences : List String) : Option (List String) :=
  let sentence_lengths := sentences.map String.length
  let total_length := sentence_lengths.sum
  let excess_factor_float : ℚ := (total_length : ℚ) / (TTS_CHARACTER_LIMIT : ℚ)
  let excess_factor_int : ℤ := ⌈excess_factor_float⌉
  if excess_factor_int = 0 then
    none
  else
    let target_length : ℚ := (total_length : ℚ) / (excess_factor_int : ℚ)
    match rebundleLoop sentences target_length (2 * sentences.length + 1) 0 "" 0 [] with
    | none => none
    | some (rebundled, current_bundle) =>
        some (if current_bundle ≠ "" then rebundled ++ [current_bundle] else rebundled)

example :
    rebundle_sentences_intelligently_ahdhering_to_TTS_limits
      ["Hello world.", "Short.", "This is a bundle test sentence."]
      = some [" Hello world. Short. This is a bundle test sentence."] := by decide

example :
    rebundle_sentences_intelligently_ahdhering_to_TTS_limits ["Hi.", "Yo."]
      = some [" Hi. Yo."] := by decide

/-- Ordered concatenation of a list of strings (Python `"".join`-style). -/
def concatStrings : List String → String
  | [] => ""
  | s :: rest => s ++ concatStrings rest

@[simp] theorem concatStrings_nil : concatStrings [] = "" := rfl

@[simp] theorem concatStrings_cons (s : String) (rest : List String) :
    concatStrings (s :: rest) = s ++ concatStrings rest := rfl

theorem concatStrings_append (l₁ l₂ : List String) :
    concatStrings (l₁ ++ l₂) = concatStrings l₁ ++ concatStrings l₂ := by
  induction l₁ with
  | nil => simp [String.empty_append]
  | cons s rest ih => simp [ih, String.append_assoc]

/-- The ordered concatenation of sentences, each preceded by the single
separating space the rebundler injects (`current_bundle += f" {sentence}"`). -/
def spacedConcat (sentences : List String) : String :=
  concatStrings (sentences.map (fun s => " " ++ s))

@[simp] theorem spacedConcat_nil : spacedConcat [] = "" := rfl

@[simp] theorem spacedConcat_cons (s : String) (rest : List String) :
    spacedConcat (s :: rest) = " " ++ s ++ spacedConcat rest := by
  simp [spacedConcat, String.append_assoc]

/-- The loop measure `2 * (remaining sentences) + (1 if the current bundle is
non-empty)` strictly bounds the number of loop iterations: fuel exceeding it
is never exhausted. -/
theorem rebundleLoop_fuel_sufficient (sentences : List String) (target_length : ℚ) :
    ∀ fuel sentence_index current_bundle running_length rebundled,
      2 * (sentences.length - sentence_index)
          + (if running_length = 0 then 0 else 1) < fuel →
      (rebundleLoop sentences target_length fuel sentence_index current_bundle
          running_length rebundled).isSome := by
  intro fuel
  induction fuel with
  | zero => intro idx cb rl out h; omega
  | succ fuel ih =>
    intro idx cb rl out h
    have hb : (if rl = 0 then (0:ℕ) else 1) ≤ 1 := by split <;> omega
    rw [rebundleLoop]
    by_cases hidx : idx < sentences.length
    · simp only [hidx, dif_pos]
      split
      · split
        · split
          · exact ih _ _ _ _ (by split <;> omega)
          · exact ih _ _ _ _ (by split <;> omega)
        · exact ih _ _ _ _ (by split <;> omega)
      · split
        · exact ih _ _ _ _ (by split <;> omega)
        · refine ih _ _ _ _ ?_
          have hrl : ¬ rl = 0 := by assumption
          have hb1 : (if rl = 0 then (0:ℕ) else 1) = 1 := if_neg hrl
          split <;> omega
    · simp [hidx]

theorem append_space_append_ne_empty (cb s : String) : (cb ++ " " ++ s) ≠ "" := by
  intro hcontra
  have h1 : (cb ++ " " ++ s).length = cb.length + 1 + s.length := by
    simp [String.length_append]
    rfl
  rw [hcontra] at h1
  rw [String.length_empty] at h1
  omega

theorem ne_empty_of_length_pos (cb : String) (h : 0 < cb.length) : cb ≠ "" := by
  intro hcontra
  rw [hcontra, String.length_empty] at h
  omega

theorem spacedConcat_drop (l : List String) (n : ℕ) (h : n < l.length) :
    spacedConcat (l.drop n) = " " ++ l.get ⟨n, h⟩ ++ spacedConcat (l.drop (n + 1)) := by
  rw [List.drop_eq_getElem_cons h, spacedConcat_cons]
  simp

/-- Main loop invariant: whenever the loop returns (with any fuel), and the
target length is positive (as it always is when the caller's
`total_length` is non-zero), the concatenation of the emitted bundles plus the
trailing accumulator extends the input accumulators by exactly one
space-prefixed copy of each not-yet-visited sentence, and every newly emitted
bundle is non-empty. -/
theorem rebundleLoop_invariant (sentences : List String) (target_length : ℚ)
    (htarget : 0 < target_length) :
    ∀ fuel sentence_index current_bundle running_length rebundled out cur,
      running_length ≤ current_bundle.length →
      rebundleLoop sentences target_length fuel sentence_index current_bundle
          running_length rebundled = some (out, cur) →
      (concatStrings out ++ cur
          = concatStrings rebundled ++ current_bundle
              ++ spacedConcat (sentences.drop sentence_index))
        ∧ (∀ b ∈ out, b ∈ rebundled ∨ b ≠ "") := by
  intro fuel
  induction fuel with
  | zero => intro idx cb rl reb out cur hlen heq; simp [rebundleLoop] at heq
  | succ fuel ih =>
    intro idx cb rl reb out cur hlen heq
    rw [rebundleLoop] at heq
    by_cases hidx : idx < sentences.length
    · simp only [hidx, dif_pos] at heq
      split at heq
      · -- the sentence fits into the bundle
        split at heq
        · split at heq
          · -- path 1a: running_length_with_sentence = 0 while the bundle is
            -- full; impossible since 0 < target_length
            exfalso
            have h0 : rl + (sentences.get ⟨idx, hidx⟩).length = 0 := by assumption
            have hfull : target_length ≤ ((rl + (sentences.get ⟨idx, hidx⟩).length : ℕ) : ℚ) := by
              assumption
            rw [h0] at hfull
            simp at hfull
            exact absurd htarget (not_lt.mpr hfull)
          · -- bundle closed after appending the sentence
            obtain ⟨heq', hmem⟩ := ih (idx + 1) "" 0 _ out cur (by simp) heq
            constructor
            · rw [heq', concatStrings_append, spacedConcat_drop sentences idx hidx]
              simp [String.append_assoc, String.append_empty, String.empty_append]
            · intro b hb
              rcases hmem b hb with hmem' | hne
              · rcases List.mem_append.mp hmem' with h' | h'
                · exact Or.inl h'
                · right
                  rw [List.mem_singleton.mp h']
                  exact append_space_append_ne_empty cb _
              · exact Or.inr hne
        · -- sentence appended, bundle stays open
          have hlen' : rl + (sentences.get ⟨idx, hidx⟩).length
              ≤ (cb ++ " " ++ (sentences.get ⟨idx, hidx⟩)).length := by
            have h2 : (cb ++ " " ++ (sentences.get ⟨idx, hidx⟩)).length
                = cb.length + 1 + (sentences.get ⟨idx, hidx⟩).length := by
              simp [String.length_append]
              rfl
            omega
          obtain ⟨heq', hmem⟩ := ih (idx + 1) _ _ _ out cur hlen' heq
          constructor
          · rw [heq', spacedConcat_drop sentences idx hidx]
            simp [String.append_assoc]
          · exact hmem
      · -- the sentence does not fit
        split at heq
        · -- running_length = 0: the oversized sentence is emitted on its own
          obtain ⟨heq', hmem⟩ := ih (idx + 1) "" 0 _ out cur (by simp) heq
          constructor
          · rw [heq', concatStrings_append, spacedConcat_drop sentences idx hidx]
            simp [String.append_assoc, String.append_empty, String.empty_append]
          · intro b hb
            rcases hmem b hb with hmem' | hne
            · rcases List.mem_append.mp hmem' with h' | h'
              · exact Or.inl h'
              · right
                rw [List.mem_singleton.mp h']
                exact append_space_append_ne_empty cb _
            · exact Or.inr hne
        · -- running_length ≠ 0: close the current bundle, index unchanged
          obtain ⟨heq', hmem⟩ := ih idx "" 0 _ out cur (by simp) heq
          have hrl : ¬ rl = 0 := by assumption
          constructor
          · rw [heq', concatStrings_append]
            simp [String.append_assoc, String.append_empty, String.empty_append]
          · intro b hb
            rcases hmem b hb with hmem' | hne
            · rcases List.mem_append.mp hmem' with h' | h'
              · exact Or.inl h'
              · right
                rw [List.mem_singleton.mp h']
                exact ne_empty_of_length_pos cb (by omega)
            · exact Or.inr hne
    · simp only [hidx, dif_neg] at heq
      obtain ⟨hout, hcur⟩ : reb = out ∧ cb = cur := by
        injection heq with h'
        injection h' with h1 h2
        exact ⟨h1, h2⟩
      subst hout
      subst hcur
      rw [List.drop_eq_nil_of_le (by omega)]
      constructor
      · simp [String.append_empty]
      · intro b hb
        exact Or.inl hb

/-- C10: for every finite list of sentences (and any target length), the
intelligent rebundling loop terminates within at most twice the number of
sentences iterations: fuel `2 * |sentences| + 1`, which allows at most
`2 * |sentences|` executions of the loop body before the final
`sentence_index < len(sentences)` test, is never exhausted.  Each iteration
either advances `sentence_index` or closes a bundle and zeroes
`running_length`, after which the next iteration must advance the index. -/
theorem rebundleLoop_terminates_within_two_n (sentences : List String)
    (target_length : ℚ) :
    (rebundleLoop sentences target_length (2 * sentences.length + 1)
        0 "" 0 []).isSome :=
  rebundleLoop_fuel_sufficient sentences target_length _ 0 "" 0 []
    (by simp)

theorem rebundleLoop_terminates_within_two_n_witness :
    (rebundleLoop ["Hi.", "Yo."] 6 5 0 "" 0 []).isSome :=
  rebundleLoop_terminates_within_two_n ["Hi.", "Yo."] 6

/-- C3: whenever intelligent rebundling returns (i.e. does not hit the
`ZeroDivisionError` of an all-empty sentence list), the ordered concatenation
of the output bundles equals the ordered concatenation of the original
sentences each preceded by its single injected separating space — so
stripping the injected spaces recovers the original sentence sequence with no
drops, no reordering and no duplication — and every output bundle is
non-empty. -/
theorem rebundle_preserves_sentences (sentences out : List String)
    (h : rebundle_sentences_intelligently_ahdhering_to_TTS_limits sentences
        = some out) :
    concatStrings out = spacedConcat sentences ∧ ∀ b ∈ out, b ≠ "" := by
  rw [rebundle_sentences_intelligently_ahdhering_to_TTS_limits] at h
  simp only at h
  by_cases hzero : (⌈((((sentences.map String.length).sum : ℕ) : ℚ)
      / ((TTS_CHARACTER_LIMIT : ℕ) : ℚ))⌉ : ℤ) = 0
  · rw [if_pos hzero] at h
    exact absurd h (by simp)
  · rw [if_neg hzero] at h
    -- the target length is strictly positive
    have htot : 0 < (sentences.map String.length).sum := by
      by_contra h0
      push_neg at h0
      have h0' : (sentences.map String.length).sum = 0 := by omega
      rw [h0'] at hzero
      simp at hzero
    have hTpos : (0 : ℚ) < (((sentences.map String.length).sum : ℕ) : ℚ) := by
      exact_mod_cast htot
    have hlimpos : (0 : ℚ) < ((TTS_CHARACTER_LIMIT : ℕ) : ℚ) := by
      norm_num [TTS_CHARACTER_LIMIT]
    have hceilpos : (0 : ℤ) < ⌈((((sentences.map String.length).sum : ℕ) : ℚ)
        / ((TTS_CHARACTER_LIMIT : ℕ) : ℚ))⌉ := by
      apply Int.ceil_pos.mpr
      exact div_pos hTpos hlimpos
    have htarget : (0 : ℚ) < (((sentences.map String.length).sum : ℕ) : ℚ)
        / ((⌈((((sentences.map String.length).sum : ℕ) : ℚ)
            / ((TTS_CHARACTER_LIMIT : ℕ) : ℚ))⌉ : ℤ) : ℚ) := by
      apply div_pos hTpos
      exact_mod_cast hceilpos
    revert h
    split
    · intro h
      exact absurd h (by simp)
    · rename_i reb cb heq
      intro h
      obtain ⟨heq', hmem⟩ :=
        rebundleLoop_invariant sentences _ htarget _ 0 "" 0 [] reb cb (by simp) heq
      simp only [concatStrings_nil, List.drop_zero, String.empty_append] at heq'
      have hout : out = if cb ≠ "" then reb ++ [cb] else reb := by
        injection h with h'
        exact h'.symm
      subst hout
      by_cases hcb : cb = ""
      · rw [if_neg (by simp [hcb])]
        constructor
        · rw [hcb, String.append_empty] at heq'
          exact heq'
        · intro b hb
          rcases hmem b hb with h' | h'
          · exact absurd h' (List.not_mem_nil b)
          · exact h'
      · rw [if_pos hcb]
        constructor
        · rw [concatStrings_append, concatStrings_cons, concatStrings_nil,
            String.append_empty]
          exact heq'
        · intro b hb
          rcases List.mem_append.mp hb with h' | h'
          · rcases hmem b h' with h'' | h''
            · exact absurd h'' (List.not_mem_nil b)
            · exact h''
          · rw [List.mem_singleton.mp h']
            exact hcb

theorem rebundle_preserves_sentences_witness :
    rebundle_sentences_intelligently_ahdhering_to_TTS_limits ["Hi.", "Yo."]
        = some [" Hi. Yo."]
      ∧ (concatStrings [" Hi. Yo."] = spacedConcat ["Hi.", "Yo."]
          ∧ ∀ b ∈ [" Hi. Yo."], b ≠ "") :=
  ⟨by decide, rebundle_preserves_sentences ["Hi.", "Yo."] [" Hi. Yo."] (by decide)⟩

/-- C2 (evidence of the code bug): on 128 one-character sentences, none of
which exceeds the limit, the code emits a single bundle whose string length is
256 > TTS_CHARACTER_LIMIT = 255: the loop counts only sentence characters in
`running_length` and never the injected separator spaces, contradicting the
code comment "bundle sentences into texts of length >= target_length and
<= TTS_CHARACTER_LIMIT" and the claim. -/
theorem rebundle_bundle_exceeds_limit :
    (rebundle_sentences_intelligently_ahdhering_to_TTS_limits
        (List.replicate 128 "a")).map (List.map String.length) = some [256]
      ∧ ∀ s ∈ List.replicate 128 "a", s.length ≤ TTS_CHARACTER_LIMIT := by
  constructor
  · decide
  · decide

/-! ## The audio assembler: `MyRequestHandler._concatenate_wav_files` -/

/-- Audio format parameters (`wave_params = w.getparams()`) as used by
`_concatenate_wav_files`: channel count, sample width in bytes and frame
rate.  The remaining Python fields (nframes, comptype, compname) play no role
in the embedded logic. -/
structure WaveParams where
  nchannels : ℕ
  sampwidth : ℕ
  framerate : ℕ
deriving DecidableEq, Repr

/-- One input of `_concatenate_wav_files`: the path, `os.path.dirname(path)`,
the id suffix that the regex group `(_[0-9_]+)` before `.wav` extracts from
the path, the file's parameters and its raw frame bytes (what
`w.readframes(w.getnframes())` returns). -/
structure WavFile where
  path : String
  dir : String
  idSuffix : String
  params : WaveParams
  frames : List ℕ
deriving DecidableEq, Repr

/-- Python `int(q)` on a float: truncation toward zero. -/
def pyInt (q : ℚ) : ℤ := if 0 ≤ q then ⌊q⌋ else ⌈q⌉

/-- `num_silence_frames = int((SILENCE_DURATION_BETWEEN_CONSECTIVE_SPEECHES
/ self._speed_of_speech) * wave_params.framerate)` (lines 309-310). -/
def numSilenceFrames (speed : ℚ) (framerate : ℕ) : ℤ :=
  pyInt ((SILENCE_DURATION_BETWEEN_CONSECTIVE_SPEECHES / speed) * (framerate : ℚ))

/-- `silence_data = bytes(0 for i in range(num_silence_frames *
wave_params.sampwidth))` (line 311); a negative range is empty, hence
`Int.toNat`. -/
def silence_data (speed : ℚ) (params : WaveParams) : List ℕ :=
  List.replicate ((numSilenceFrames speed params.framerate).toNat * params.sampwidth) 0

/-- The `for filename in audio_clip_paths` loop (lines 302-315): for EVERY
input file, first `data.append([wave_params, silence_data])`, then
`data.append([wave_params, frames])` — note that this puts silence before the
first file's frames as well. -/
def concatData (speed : ℚ) : List WavFile → List (WaveParams × List ℕ)
  | [] => []
  | f :: rest =>
      (f.params, silence_data speed f.params) :: (f.params, f.frames)
        :: concatData speed rest

/-- The id-suffix accumulation performed by the same loop:
`output_file_path += re.search(...).group(1)` per input file, in order. -/
def outputSuffix : List WavFile → String
  | [] => ""
  | f :: rest => f.idSuffix ++ outputSuffix rest

/-- The write loop `for i in range(len(data)): output.writeframes(data[i][1])`
(lines 320-321): the bytes written to the output file, in order. -/
def writtenFrames : List (WaveParams × List ℕ) → List ℕ
  | [] => []
  | entry :: rest => entry.2 ++ writtenFrames rest

/-- The observable outcome of `_concatenate_wav_files`: `noFile` is Python
`return None` with nothing written; `existingPath p` returns the input path
`p` unchanged with no file written; `written path params frames` records the
output path, the parameters passed to `output.setparams` and the byte
sequence written by the `writeframes` loop. -/
inductive ConcatResult where
  | noFile : ConcatResult
  | existingPath : String → ConcatResult
  | written : String → WaveParams → List ℕ → ConcatResult
deriving DecidableEq, Repr

/-- Whether an output file was produced. -/
def ConcatResult.isWritten : ConcatResult → Bool
  | ConcatResult.written _ _ _ => true
  | _ => false

/-- The parameters written to the output file header, if any. -/
def ConcatResult.headerParams : ConcatResult → Option WaveParams
  | ConcatResult.written _ p _ => some p
  | _ => none

/-- `MyRequestHandler._concatenate_wav_files` (streaming_tts_server.py lines
279-323).  `output.setparams(data[0][0])` is the first input's parameters
because the first `data` entry is that file's silence entry. -/
def concatenate_wav_files (speed : ℚ) (audio_clip_paths : List WavFile) :
    ConcatResult :=
  match audio_clip_paths with
  | [] => ConcatResult.noFile
  | [f] => ConcatResult.existingPath f.path
  | f0 :: f1 :: rest =>
      let data := concatData speed (f0 :: f1 :: rest)
      let output_file_path :=
        f0.dir ++ "/tts" ++ outputSuffix (f0 :: f1 :: rest) ++ ".wav"
      ConcatResult.written output_file_path f0.params (writtenFrames data)

/-- Modelled from the spec for comparison with the code (claim C4): frames
are the input files' frames in input order, with silence of frame count
`round(0.5/speed × sampleRate)` (zero bytes of the shared sample width)
strictly between consecutive inputs: none before the first input's frames and
none after the last. -/
def claimedAssembledFrames (speed : ℚ) (files : List WavFile) : List ℕ :=
  match files with
  | [] => []
  | f :: _ =>
      List.intercalate
        (List.replicate
          ((round ((SILENCE_DURATION_BETWEEN_CONSECTIVE_SPEECHES / speed)
              * (f.params.framerate : ℚ))).toNat * f.params.sampwidth) 0)
        (files.map WavFile.frames)

theorem writtenFrames_concatData (speed : ℚ) (files : List WavFile) :
    writtenFrames (concatData speed files)
      = (files.map (fun f => silence_data speed f.params ++ f.frames)).flatten := by
  induction files with
  | nil => rfl
  | cons f rest ih =>
      simp [concatData, writtenFrames, ih, List.append_assoc]

/-- C4 (counterexample): with two identically-formatted 1-byte inputs at
frame rate 4 and speed 1, the code writes `[0,0,1,0,0,2]` — silence of 2
frames BEFORE the first input's frames as well as between the inputs — while
the claim's reading of the spec predicts `[1,0,0,2]` (silence strictly
between).  Moreover the code computes the silence frame count with Python
`int` truncation, not rounding: at speed 4.9 and frame rate 24000 it produces
2448 silence bytes where the claim's `round` predicts 2449. -/
theorem concatenate_wav_files_counterexample :
    concatenate_wav_files 1
        [⟨"d/tts_1.wav", "d", "_1", ⟨1, 1, 4⟩, [1]⟩,
         ⟨"d/tts_2.wav", "d", "_2", ⟨1, 1, 4⟩, [2]⟩]
      = ConcatResult.written "d/tts_1_2.wav" ⟨1, 1, 4⟩ [0, 0, 1, 0, 0, 2]
    ∧ claimedAssembledFrames 1
        [⟨"d/tts_1.wav", "d", "_1", ⟨1, 1, 4⟩, [1]⟩,
         ⟨"d/tts_2.wav", "d", "_2", ⟨1, 1, 4⟩, [2]⟩] = [1, 0, 0, 2]
    ∧ concatenate_wav_files 1
        [⟨"d/tts_1.wav", "d", "_1", ⟨1, 1, 4⟩, [1]⟩,
         ⟨"d/tts_2.wav", "d", "_2", ⟨1, 1, 4⟩, [2]⟩]
      ≠ ConcatResult.written "d/tts_1_2.wav" ⟨1, 1, 4⟩
          (claimedAssembledFrames 1
            [⟨"d/tts_1.wav", "d", "_1", ⟨1, 1, 4⟩, [1]⟩,
             ⟨"d/tts_2.wav", "d", "_2", ⟨1, 1, 4⟩, [2]⟩])
    ∧ (silence_data (49/10) ⟨1, 1, 24000⟩).length = 2448
    ∧ (round ((SILENCE_DURATION_BETWEEN_CONSECTIVE_SPEECHES / (49/10))
          * ((24000 : ℕ) : ℚ))).toNat * 1 = 2449 := by
  refine ⟨by decide, by decide, by decide, ?_, by decide⟩
  rw [silence_data, List.length_replicate]
  decide

/-- C4 (amended): for two or more inputs and positive speed, the output
file's frames are, for EVERY input in order (including the first), silence of
`int((0.5 / speed) * framerate) * sampwidth` zero bytes followed by that
input's frames; equivalently, silence precedes every input's frames and none
follows the last.  (The claim's "strictly between consecutive inputs" and
"round" both disagree with the code.) -/
theorem concatenate_wav_files_frames (speed : ℚ) (_hspeed : 0 < speed)
    (f0 f1 : WavFile) (rest : List WavFile) :
    concatenate_wav_files speed (f0 :: f1 :: rest)
      = ConcatResult.written
          (f0.dir ++ "/tts" ++ outputSuffix (f0 :: f1 :: rest) ++ ".wav")
          f0.params
          (((f0 :: f1 :: rest).map
              (fun f => silence_data speed f.params ++ f.frames)).flatten) := by
  rw [concatenate_wav_files]
  rw [writtenFrames_concatData]

theorem concatenate_wav_files_frames_witness :
    (0 : ℚ) < 1
    ∧ concatenate_wav_files 1
        [⟨"d/tts_1.wav", "d", "_1", ⟨1, 1, 4⟩, [1]⟩,
         ⟨"d/tts_2.wav", "d", "_2", ⟨1, 1, 4⟩, [2]⟩]
      = ConcatResult.written "d/tts_1_2.wav" ⟨1, 1, 4⟩
          (([⟨"d/tts_1.wav", "d", "_1", ⟨1, 1, 4⟩, [1]⟩,
             (⟨"d/tts_2.wav", "d", "_2", ⟨1, 1, 4⟩, [2]⟩ : WavFile)].map
              (fun f => silence_data 1 f.params ++ f.frames)).flatten) :=
  ⟨by norm_num,
    concatenate_wav_files_frames 1 (by norm_num)
      ⟨"d/tts_1.wav", "d", "_1", ⟨1, 1, 4⟩, [1]⟩
      ⟨"d/tts_2.wav", "d", "_2", ⟨1, 1, 4⟩, [2]⟩ []⟩

/-- C5 (counterexample): two inputs with different sample rates (24000 vs
22050): `_concatenate_wav_files` raises no error at all and still produces an
output file — there is no format check anywhere in the function, so no
`FormatMismatch` failure occurs. -/
theorem concatenate_wav_files_mismatch_counterexample :
    ((⟨1, 1, 24000⟩ : WaveParams) ≠ (⟨1, 1, 22050⟩ : WaveParams))
    ∧ (concatenate_wav_files 1
        [⟨"d/tts_1.wav", "d", "_1", ⟨1, 1, 24000⟩, [7]⟩,
         ⟨"d/tts_2.wav", "d", "_2", ⟨1, 1, 22050⟩, [8]⟩]).isWritten = true
    ∧ (concatenate_wav_files 1
        [⟨"d/tts_1.wav", "d", "_1", ⟨1, 1, 24000⟩, [7]⟩,
         ⟨"d/tts_2.wav", "d", "_2", ⟨1, 1, 22050⟩, [8]⟩]).headerParams
      = some ⟨1, 1, 24000⟩ := by
  refine ⟨by decide, rfl, rfl⟩

/-- C5 (amended): the assembler performs no format check: for two or more
inputs whose formats are NOT all identical it does not fail — it still writes
an output file, whose header carries the first input's parameters (each
inserted silence being computed from its own input's frame rate). -/
theorem concatenate_wav_files_no_format_check (speed : ℚ) (f0 f1 : WavFile)
    (rest : List WavFile) (_hmismatch : f0.params ≠ f1.params) :
    (concatenate_wav_files speed (f0 :: f1 :: rest)).isWritten = true
    ∧ (concatenate_wav_files speed (f0 :: f1 :: rest)).headerParams
      = some f0.params :=
  ⟨rfl, rfl⟩

theorem concatenate_wav_files_no_format_check_witness :
    ((⟨1, 1, 24000⟩ : WaveParams) ≠ (⟨1, 1, 22050⟩ : WaveParams))
    ∧ ((concatenate_wav_files 1
        [⟨"a", "d", "_1", ⟨1, 1, 24000⟩, []⟩,
         ⟨"b", "d", "_2", ⟨1, 1, 22050⟩, []⟩]).isWritten = true
      ∧ (concatenate_wav_files 1
        [⟨"a", "d", "_1", ⟨1, 1, 24000⟩, []⟩,
         ⟨"b", "d", "_2", ⟨1, 1, 22050⟩, []⟩]).headerParams
        = some ⟨1, 1, 24000⟩) :=
  ⟨by decide,
    concatenate_wav_files_no_format_check 1
      ⟨"a", "d", "_1", ⟨1, 1, 24000⟩, []⟩
      ⟨"b", "d", "_2", ⟨1, 1, 22050⟩, []⟩ [] (by decide)⟩

/-- C6: called with an empty path list, `_concatenate_wav_files` returns
`None` and produces no file; called with exactly one path it returns that
path unchanged — no output file is written, no copy is made and no silence is
inserted (the `existingPath` outcome carries no written data at all). -/
theorem concatenate_wav_files_edge_cases (speed : ℚ) :
    concatenate_wav_files speed [] = ConcatResult.noFile
    ∧ ∀ f : WavFile,
        concatenate_wav_files speed [f] = ConcatResult.existingPath f.path :=
  ⟨rfl, fun _ => rfl⟩

theorem concatenate_wav_files_edge_cases_witness :
    concatenate_wav_files 1 [] = ConcatResult.noFile
    ∧ concatenate_wav_files 1 [⟨"a.wav", "", "", ⟨1, 1, 1⟩, []⟩]
      = ConcatResult.existingPath "a.wav" :=
  ⟨(concatenate_wav_files_edge_cases 1).1,
    (concatenate_wav_files_edge_cases 1).2 ⟨"a.wav", "", "", ⟨1, 1, 1⟩, []⟩⟩

/-! ## The streaming pipeline: `StreamingTTS._generate_chunks` (producer) and
`StreamingTTS._playback_chunks_using_pyaudio` (consumer) -/

/-- One record appended to `self._wave` by the producer:
`[wav_data.getparams(), wav_data.readframes(wav_data.getnframes())]`. -/
structure AudioChunkRec where
  params : WaveParams
  frames : List ℕ
deriving DecidableEq, Repr

/-- The error `_generate_chunks` raises after its loop when the inference
stream yielded no chunks: `wav = torch.cat(bundle, dim=0)` (line 279) on the
empty `bundle` list raises RuntimeError — torch.cat requires a non-empty
tensor list — before the sentinel push at line 281. -/
inductive ProducerError where
  | torchCatEmptyBundle : ProducerError
deriving DecidableEq, Repr

/-- `_generate_chunks` (streaming_tts.py lines 264-281), abstracted over the
inference stream (modelled as the list of chunk records it gives rise to):
the enumeration loop pushes the index `i` of the i-th chunk, in order, after
appending the chunk's record to `self._wave` (so when index `i` is popped,
`self._wave` already holds entries `0..i`; at loop end `self._wave` is the
full chunk list).  After the loop, `torch.cat(bundle, dim=0)` raises
RuntimeError when the chunk list is empty — BEFORE `queue.put(None)` — so in
that case no sentinel follows the (zero) pushed indices and the producer
terminates with the error; otherwise the full wave is saved and the sentinel
`None` is pushed.  Returns the pushed message sequence and the producer's
outcome. -/
def generate_chunks (chunks : List AudioChunkRec) :
    List (Option ℕ) × Except ProducerError Unit :=
  let index_messages := chunks.enum.map (fun ic => Option.some ic.1)
  match chunks with
  | [] => (index_messages, Except.error ProducerError.torchCatEmptyBundle)
  | _ :: _ => (index_messages ++ [Option.none], Except.ok ())

/-- The queue content produced by one `_generate_chunks` run.  `queue.Queue`
is FIFO, so the single consumer pops exactly this sequence in this order. -/
def generate_chunks_messages (chunks : List AudioChunkRec) : List (Option ℕ) :=
  (generate_chunks chunks).1

/-- The observable events of one consumer run, in order. -/
inductive PEvent where
  | popped : Option ℕ → PEvent
  | openStream : PEvent
  | animate : ℕ → PEvent
  | play : ℕ → PEvent
  | closeStream : PEvent
deriving DecidableEq, Repr

/-- The Python local variable `stream` of `_playback_chunks_using_pyaudio`:
unbound until the `key == 0` branch assigns it, then open, then closed by the
sentinel branch. -/
inductive StreamVar where
  | unbound : StreamVar
  | opened : StreamVar
  | closed : StreamVar
deriving DecidableEq, Repr

structure ConsumerState where
  stream : StreamVar
  events : List PEvent
deriving DecidableEq, Repr

/-- Python runtime errors the consumer body can raise. -/
inductive PyRuntimeError where
  | unboundLocalStream : PyRuntimeError
  | waveIndexError : PyRuntimeError
deriving DecidableEq, Repr

/-- One iteration of the consumer's `while True` loop (streaming_tts.py lines
291-318).  Branches in source order: `if key == 0` opens the stream from
`self._wave[0][0]` (IndexError if `self._wave` is empty), animates if pylips
is on, writes chunk 0 if playback is on; `elif key` (truthy, i.e. a non-zero
index) reads `self._wave[key][1]` (IndexError if out of range), animates if
pylips is on, and if playback is on writes to `stream` — an
UnboundLocalError if `stream` was never assigned; `else` (the `None`
sentinel) calls `stream.stop_stream()` / `stream.close()` — an
UnboundLocalError if `stream` was never assigned — and breaks.  Returns the
new state and the `break` flag. -/
def consumerStep (wave : List AudioChunkRec) (playback actuate_pylips : Bool)
    (st : ConsumerState) (key : Option ℕ) :
    Except PyRuntimeError (ConsumerState × Bool) :=
  let evs := st.events ++ [PEvent.popped key]
  match key with
  | Option.some 0 =>
      if 0 < wave.length then
        Except.ok
          ({ stream := StreamVar.opened
           , events := evs ++ [PEvent.openStream]
               ++ (if actuate_pylips then [PEvent.animate 0] else [])
               ++ (if playback then [PEvent.play 0] else []) }, false)
      else Except.error PyRuntimeError.waveIndexError
  | Option.some (k + 1) =>
      if k + 1 < wave.length then
        if playback then
          match st.stream with
          | StreamVar.unbound => Except.error PyRuntimeError.unboundLocalStream
          | _ =>
              Except.ok
                ({ st with events := evs
                    ++ (if actuate_pylips then [PEvent.animate (k + 1)] else [])
                    ++ [PEvent.play (k + 1)] }, false)
        else
          Except.ok
            ({ st with events := evs
                ++ (if actuate_pylips then [PEvent.animate (k + 1)] else []) },
              false)
      else Except.error PyRuntimeError.waveIndexError
  | Option.none =>
      match st.stream with
      | StreamVar.unbound => Except.error PyRuntimeError.unboundLocalStream
      | _ =>
          Except.ok ({ stream := StreamVar.closed
                     , events := evs ++ [PEvent.closeStream] }, true)

/-- The consumer's `while True` loop run over the (finite) sequence of
messages it will pop.  `Except.ok Option.none` means the message list was
exhausted without a `break`: the consumer would block forever in
`queue.get()` (this never happens on a completed producer trace, which ends
with the sentinel). -/
def consumerRun (wave : List AudioChunkRec) (playback actuate_pylips : Bool) :
    List (Option ℕ) → ConsumerState →
      Except PyRuntimeError (Option ConsumerState)
  | [], _ => Except.ok Option.none
  | key :: rest, st =>
      match consumerStep wave playback actuate_pylips st key with
      | Except.error e => Except.error e
      | Except.ok (st', true) => Except.ok (Option.some st')
      | Except.ok (st', false) =>
          consumerRun wave playback actuate_pylips rest st'

/-- The consumer's state on entry: `stream` unbound, nothing observed yet. -/
def initConsumerState : ConsumerState := ⟨StreamVar.unbound, []⟩

theorem consumerRun_opened_tail (wave : List AudioChunkRec)
    (actuate_pylips : Bool) :
    ∀ m k evs, 0 < k → k + m ≤ wave.length →
      consumerRun wave true actuate_pylips
          ((List.range' k m).map Option.some ++ [Option.none])
          ⟨StreamVar.opened, evs⟩
        = Except.ok (Option.some
            ⟨StreamVar.closed,
              evs ++ ((List.range' k m).map
                  (fun i => [PEvent.popped (Option.some i)]
                    ++ (if actuate_pylips then [PEvent.animate i] else [])
                    ++ [PEvent.play i])).flatten
                ++ [PEvent.popped Option.none, PEvent.closeStream]⟩) := by
  intro m
  induction m with
  | zero =>
      intro k evs hk hle
      simp [consumerRun, consumerStep]
  | succ m ih =>
      intro k evs hk hle
      rw [List.range'_succ]
      cases k with
      | zero => omega
      | succ j =>
          rw [List.map_cons, List.cons_append, consumerRun]
          have hlt : j + 1 < wave.length := by omega
          rw [consumerStep]
          simp only [hlt, if_pos, if_true]
          rw [show j + 1 + 1 = j + 2 from rfl]
          refine Eq.trans (ih (j + 2) _ (by omega) (by omega)) ?_
          simp [List.append_assoc]

theorem generate_chunks_messages_eq (chunks : List AudioChunkRec)
    (h : chunks ≠ []) :
    generate_chunks_messages chunks
      = (List.range chunks.length).map Option.some ++ [Option.none] := by
  match chunks, h with
  | c :: cs, _ =>
      rw [generate_chunks_messages, generate_chunks]
      simp only []
      congr 1
      rw [← List.enum_map_fst (c :: cs), List.map_map]
      rfl

/-- C1: for every bundle synthesis in which the producer pushes chunk indices
`0, 1, ..., n-1` (n ≥ 1) onto the FIFO hand-off queue in order followed by
the sentinel, the consumer (playback enabled) pops and processes exactly
those indices in exactly that order: its complete event trace pops 0 first
and only then — never before — opens the playback stream, then pops and plays
each following index in order, and closes the stream exactly upon popping the
sentinel, which is the only close and the last event. -/
theorem consumer_pipeline_ordering (chunks : List AudioChunkRec)
    (h : chunks ≠ []) :
    consumerRun chunks true false (generate_chunks_messages chunks)
        initConsumerState
      = Except.ok (Option.some
          ⟨StreamVar.closed,
            [PEvent.popped (Option.some 0), PEvent.openStream, PEvent.play 0]
              ++ ((List.range' 1 (chunks.length - 1)).map
                    (fun i => [PEvent.popped (Option.some i), PEvent.play i])).flatten
              ++ [PEvent.popped Option.none, PEvent.closeStream]⟩) := by
  cases chunks with
  | nil => exact absurd rfl h
  | cons c cs =>
      rw [generate_chunks_messages_eq _ (List.cons_ne_nil c cs),
        List.length_cons, List.range_eq_range',
        List.range'_succ, List.map_cons, List.cons_append, consumerRun,
        consumerStep]
      have h0 : 0 < (c :: cs).length := by simp
      simp only [h0, if_pos, if_true, Bool.false_eq_true, if_false,
        List.append_nil, List.nil_append, initConsumerState]
      refine Eq.trans (consumerRun_opened_tail (c :: cs) false cs.length 1 _
        (by omega) (by simp only [List.length_cons]; omega)) ?_
      simp [List.append_assoc]

theorem consumer_pipeline_ordering_witness :
    consumerRun
        [⟨⟨1, 1, 4⟩, [1]⟩, ⟨⟨1, 1, 4⟩, [2]⟩, ⟨⟨1, 1, 4⟩, [3]⟩] true false
        (generate_chunks_messages
          [⟨⟨1, 1, 4⟩, [1]⟩, ⟨⟨1, 1, 4⟩, [2]⟩, ⟨⟨1, 1, 4⟩, [3]⟩])
        initConsumerState
      = Except.ok (Option.some
          ⟨StreamVar.closed,
            [PEvent.popped (Option.some 0), PEvent.openStream, PEvent.play 0,
             PEvent.popped (Option.some 1), PEvent.play 1,
             PEvent.popped (Option.some 2), PEvent.play 2,
             PEvent.popped Option.none, PEvent.closeStream]⟩) :=
  (consumer_pipeline_ordering
      [⟨⟨1, 1, 4⟩, [1]⟩, ⟨⟨1, 1, 4⟩, [2]⟩, ⟨⟨1, 1, 4⟩, [3]⟩]
      (by decide)).trans (by rfl)

/-- C9 (counterexample): with zero chunks the producer does NOT push only the
sentinel.  Its loop pushes nothing, and `torch.cat(bundle, dim=0)` (line 279)
raises RuntimeError on the empty bundle before the sentinel push at line 281,
so the queue stays empty, and the consumer — far from reaching its sentinel
branch — pops nothing and blocks forever in `queue.get()` (neither opening
nor closing any stream, and raising no error of its own). -/
theorem producer_zero_chunks_counterexample :
    generate_chunks_messages ([] : List AudioChunkRec) ≠ [Option.none]
    ∧ generate_chunks_messages ([] : List AudioChunkRec) = []
    ∧ (generate_chunks ([] : List AudioChunkRec)).2
        = Except.error ProducerError.torchCatEmptyBundle
    ∧ consumerRun [] true true
          (generate_chunks_messages []) initConsumerState
        = Except.ok Option.none
    ∧ consumerRun [] false false
          (generate_chunks_messages []) initConsumerState
        = Except.ok Option.none :=
  ⟨by decide, rfl, rfl, rfl, rfl⟩

/-- C9 (amended): if the inference engine yields zero chunks for a bundle,
the producer pushes no index and then crashes in `torch.cat` on the empty
bundle (line 279) before it can push the sentinel (line 281), so the consumer
pops nothing and blocks forever on the hand-off queue — a producer crash plus
consumer deadlock.  Independently, the consumer's termination step is indeed
well-defined only under the precondition that at least one chunk (index 0,
which is what assigns the `stream` local) was popped before the sentinel: on
a queue whose sentinel is not preceded by index 0, the sentinel branch
executes `stream.stop_stream()` with `stream` never assigned — an
UnboundLocalError — whatever the playback and pylips flags and whatever
`self._wave` holds. -/
theorem consumer_sentinel_requires_chunk_zero :
    ((generate_chunks ([] : List AudioChunkRec)).1 = []
      ∧ (generate_chunks ([] : List AudioChunkRec)).2
          = Except.error ProducerError.torchCatEmptyBundle)
    ∧ (∀ playback actuate_pylips : Bool,
        consumerRun [] playback actuate_pylips
            (generate_chunks_messages []) initConsumerState
          = Except.ok Option.none)
    ∧ (∀ (wave : List AudioChunkRec) (playback actuate_pylips : Bool),
        consumerRun wave playback actuate_pylips [Option.none]
            initConsumerState
          = Except.error PyRuntimeError.unboundLocalStream) :=
  ⟨⟨rfl, rfl⟩, fun _ _ => rfl, fun _ _ _ => rfl⟩

theorem consumer_sentinel_requires_chunk_zero_witness :
    consumerRun [] true true (generate_chunks_messages []) initConsumerState
      = Except.ok Option.none
    ∧ consumerRun [⟨⟨1, 1, 4⟩, [1]⟩] true true [Option.none] initConsumerState
      = Except.error PyRuntimeError.unboundLocalStream :=
  ⟨consumer_sentinel_requires_chunk_zero.2.1 true true,
   consumer_sentinel_requires_chunk_zero.2.2 [⟨⟨1, 1, 4⟩, [1]⟩] true true⟩

/-! ## Argument validation in
`StreamingTTS.streaming_wav_generation_and_playback` -/

/-- A Python runtime value, as far as the validated parameters care. -/
inductive PyVal where
  | pystr : String → PyVal
  | pyfloat : ℚ → PyVal
  | pyint : ℤ → PyVal
  | pybool : Bool → PyVal
  | pynone : PyVal
deriving DecidableEq, Repr

/-- `isinstance(v, str)`. -/
def PyVal.isStr : PyVal → Bool
  | PyVal.pystr _ => true
  | _ => false

/-- `isinstance(v, float)`.  Python `int` and `bool` values are NOT `float`
instances. -/
def PyVal.isFloat : PyVal → Bool
  | PyVal.pyfloat _ => true
  | _ => false

/-- "numeric" in the claim's sense: an int or a float. -/
def PyVal.isNumeric : PyVal → Bool
  | PyVal.pyfloat _ => true
  | PyVal.pyint _ => true
  | _ => false

/-- The underlying string of a string value (irrelevant default otherwise;
only ever used after an `isStr` check succeeded). -/
def PyVal.asStr : PyVal → String
  | PyVal.pystr s => s
  | _ => ""

/-- The errors `streaming_wav_generation_and_playback` can raise during
validation, named as in the spec's error model: `invalidArgumentType` (with
the offending argument name) is `WrongTypeError`; `unsupportedLanguage` is
the generic `Exception` carrying the "is not a supported language" message;
`speakerNotFound` is `SpeakerNotFoundError`. -/
inductive TTSError where
  | invalidArgumentType : String → TTSError
  | unsupportedLanguage : String → TTSError
  | speakerNotFound : String → TTSError
deriving DecidableEq, Repr

/-- The fixed supported-language set of XTTSv2 (streaming_tts.py line 205). -/
def supported_languages : List String :=
  ["ar", "cs", "de", "en", "es", "fr", "hu", "it", "nl", "pl", "pt", "ru",
   "tr", "zh", "ko", "ja"]

/-- `StreamingTTS.streaming_wav_generation_and_playback` (streaming_tts.py
lines 186-227): the validation prefix in source order — `language` must be a
`str` (else `WrongTypeError`), `speed` must be a `float` (else
`WrongTypeError`), `language` must be in the supported set (else the
unsupported-language `Exception`), the speaker must resolve in the speaker
manager's registry (modelled as the list of known speaker names, else
`SpeakerNotFoundError`) — and only when every check passes are the generation
and playback threads started, modelled by the consumer run over the
producer's queue messages returned inside `Except.ok`.  A validation error
returns before any thread is created. -/
def streaming_wav_generation_and_playback (language speed : PyVal)
    (speaker : String) (known_speakers : List String)
    (chunks : List AudioChunkRec) (playback : Bool) :
    Except TTSError (Except PyRuntimeError (Option ConsumerState)) :=
  if language.isStr = false then
    Except.error (TTSError.invalidArgumentType "language")
  else if speed.isFloat = false then
    Except.error (TTSError.invalidArgumentType "speed")
  else if language.asStr ∉ supported_languages then
    Except.error (TTSError.unsupportedLanguage language.asStr)
  else if speaker ∉ known_speakers then
    Except.error (TTSError.speakerNotFound speaker)
  else
    Except.ok (consumerRun chunks playback false
      (generate_chunks_messages chunks) initConsumerState)

/-- C7 (amended): validation checks run in source order — `language` type,
`speed` type (a Python `float` is required: any non-float, including an
integer, fails with `WrongTypeError`), `language` membership in the supported
set, speaker resolution — the first failing check determines the raised
error, every failure returns before either the producer or the consumer task
is started (the pipeline value exists only under `Except.ok`), and when all
checks pass both tasks are started. -/
theorem streaming_validation_semantics (language speed : PyVal)
    (speaker : String) (known_speakers : List String)
    (chunks : List AudioChunkRec) (playback : Bool) :
    (language.isStr = false →
      streaming_wav_generation_and_playback language speed speaker
          known_speakers chunks playback
        = Except.error (TTSError.invalidArgumentType "language"))
    ∧ (language.isStr = true → speed.isFloat = false →
        streaming_wav_generation_and_playback language speed speaker
            known_speakers chunks playback
          = Except.error (TTSError.invalidArgumentType "speed"))
    ∧ (language.isStr = true → speed.isFloat = true →
        language.asStr ∉ supported_languages →
        streaming_wav_generation_and_playback language speed speaker
            known_speakers chunks playback
          = Except.error (TTSError.unsupportedLanguage language.asStr))
    ∧ (language.isStr = true → speed.isFloat = true →
        language.asStr ∈ supported_languages → speaker ∉ known_speakers →
        streaming_wav_generation_and_playback language speed speaker
            known_speakers chunks playback
          = Except.error (TTSError.speakerNotFound speaker))
    ∧ (language.isStr = true → speed.isFloat = true →
        language.asStr ∈ supported_languages → speaker ∈ known_speakers →
        streaming_wav_generation_and_playback language speed speaker
            known_speakers chunks playback
          = Except.ok (consumerRun chunks playback false
              (generate_chunks_messages chunks) initConsumerState)) := by
  refine ⟨?_, ?_, ?_, ?_, ?_⟩
  · intro h1
    simp [streaming_wav_generation_and_playback, h1]
  · intro h1 h2
    simp [streaming_wav_generation_and_playback, h1, h2]
  · intro h1 h2 h3
    simp [streaming_wav_generation_and_playback, h1, h2, h3]
  · intro h1 h2 h3 h4
    simp [streaming_wav_generation_and_playback, h1, h2, h3, h4]
  · intro h1 h2 h3 h4
    simp [streaming_wav_generation_and_playback, h1, h2, h3, h4]

theorem streaming_validation_semantics_witness :
    streaming_wav_generation_and_playback (PyVal.pystr "xx") (PyVal.pyfloat 1)
        "Nova Hogarth" ["Nova Hogarth"] [] false
      = Except.error (TTSError.unsupportedLanguage "xx")
    ∧ streaming_wav_generation_and_playback (PyVal.pystr "en") (PyVal.pyfloat 1)
        "Bob" ["Nova Hogarth"] [] false
      = Except.error (TTSError.speakerNotFound "Bob")
    ∧ streaming_wav_generation_and_playback (PyVal.pyint 2) (PyVal.pyfloat 1)
        "Nova Hogarth" ["Nova Hogarth"] [] false
      = Except.error (TTSError.invalidArgumentType "language") :=
  ⟨(streaming_validation_semantics (PyVal.pystr "xx") (PyVal.pyfloat 1)
      "Nova Hogarth" ["Nova Hogarth"] [] false).2.2.1 rfl rfl (by decide),
   (streaming_validation_semantics (PyVal.pystr "en") (PyVal.pyfloat 1)
      "Bob" ["Nova Hogarth"] [] false).2.2.2.1 rfl rfl (by decide) (by decide),
   (streaming_validation_semantics (PyVal.pyint 2) (PyVal.pyfloat 1)
      "Nova Hogarth" ["Nova Hogarth"] [] false).1 rfl⟩

/-- C7 (counterexample): an integer speed IS numeric, yet even with a
supported language and a resolvable speaker the call fails with
`WrongTypeError` (InvalidArgumentType), because the code demands
`isinstance(speed, float)` — so "numeric speeds do not fail with
InvalidArgumentType" is false; and with an unsupported string language
together with an int speed the call fails with InvalidArgumentType, not
UnsupportedLanguage, because the type checks run first. -/
theorem streaming_validation_counterexample :
    (PyVal.pyint 2).isNumeric = true
    ∧ streaming_wav_generation_and_playback (PyVal.pystr "en") (PyVal.pyint 2)
        "Nova Hogarth" ["Nova Hogarth"] [] false
      = Except.error (TTSError.invalidArgumentType "speed")
    ∧ streaming_wav_generation_and_playback (PyVal.pystr "xx") (PyVal.pyint 2)
        "Nova Hogarth" ["Nova Hogarth"] [] false
      = Except.error (TTSError.invalidArgumentType "speed") :=
  ⟨rfl, by rfl, by rfl⟩

/-! ## Control-field isolation: `MyRequestHandler.do_POST` and
`MyRequestHandler._speek_and_return_wav` -/

/-- A parsed JSON request body / Python dict, as an association list (a JSON
object has unique keys; all operations below also behave like dict operations
on duplicate keys, removing every occurrence). -/
abbrev PyDict := List (String × PyVal)

/-- Key removal, as performed by Python `dict.pop(k)` on the dictionary. -/
def dictRemove (d : PyDict) (k : String) : PyDict :=
  d.filter (fun kv => kv.1 ≠ k)

/-- do_POST lines 135-137: `if "download" in content:
download_requested = content.pop("download")` — the key is removed from the
dictionary so that it is not passed to the TTS engine. -/
def doPost_content_after_download (content : PyDict) : PyDict :=
  if (content.lookup "download").isSome then dictRemove content "download"
  else content

/-- _speek_and_return_wav lines 192-194: `if "split" in kwargs:
split_into_sentences = kwargs.pop("split")`. -/
def speek_kwargs_after_split (kwargs : PyDict) : PyDict :=
  if (kwargs.lookup "split").isSome then dictRemove kwargs "split"
  else kwargs

/-- The keyword-argument dictionary with which `_speek_and_return_wav`
finally calls `self._tts_session.streaming_wav_generation_and_playback(
**kwargs)` for one sentence bundle: the body after `do_POST` popped
`download` and `_speek_and_return_wav` popped `split`, with `kwargs["text"]`
set to the bundle (line 206; modelled as replacing any existing `text`
binding, which has the same lookup semantics as the in-place dict update). -/
def synthesis_call_params (content : PyDict) (sentence : String) : PyDict :=
  let kwargs := speek_kwargs_after_split (doPost_content_after_download content)
  ("text", PyVal.pystr sentence) :: dictRemove kwargs "text"

theorem lookup_dictRemove_self (d : PyDict) (k : String) :
    (dictRemove d k).lookup k = none := by
  induction d with
  | nil => rfl
  | cons kv rest ih =>
      obtain ⟨a, b⟩ := kv
      simp only [dictRemove] at ih ⊢
      rw [List.filter_cons]
      by_cases h : a = k
      · rw [if_neg (by simp [h])]
        exact ih
      · rw [if_pos (by simp [h])]
        have hne : (k == a) = false := by
          simp [Ne.symm h]
        simp only [List.lookup, hne]
        exact ih

theorem lookup_filter_none (d : PyDict) (k : String)
    (p : String × PyVal → Bool) (h : d.lookup k = none) :
    (d.filter p).lookup k = none := by
  induction d with
  | nil => rfl
  | cons kv rest ih =>
      obtain ⟨a, b⟩ := kv
      by_cases hk : k = a
      · exfalso
        have : (k == a) = true := by simp [hk]
        simp only [List.lookup, this] at h
        exact Option.noConfusion h
      · have hne : (k == a) = false := by simp [hk]
        simp only [List.lookup, hne] at h
        rw [List.filter_cons]
        by_cases hp : p (a, b)
        · rw [if_pos (by simp [hp])]
          simp only [List.lookup, hne]
          exact ih h
        · rw [if_neg (by simp [hp])]
          exact ih h

/-- C8: for every POST request body, the `download` and `split` control
fields are removed from the parameter set before synthesis is invoked:
whatever values the request gave them, the dictionary finally passed to
`streaming_wav_generation_and_playback` binds neither a `download` nor a
`split` key. -/
theorem synthesis_params_isolated (content : PyDict) (sentence : String) :
    (synthesis_call_params content sentence).lookup "download" = none
    ∧ (synthesis_call_params content sentence).lookup "split" = none := by
  have hdl : (doPost_content_after_download content).lookup "download"
      = none := by
    rw [doPost_content_after_download]
    by_cases h : (content.lookup "download").isSome
    · rw [if_pos h]
      exact lookup_dictRemove_self content "download"
    · rw [if_neg h]
      exact Option.not_isSome_iff_eq_none.mp h
  have hdl2 : (speek_kwargs_after_split
      (doPost_content_after_download content)).lookup "download" = none := by
    rw [speek_kwargs_after_split]
    split
    · exact lookup_filter_none _ _ _ hdl
    · exact hdl
  have hsp : (speek_kwargs_after_split
      (doPost_content_after_download content)).lookup "split" = none := by
    rw [speek_kwargs_after_split]
    split
    · exact lookup_dictRemove_self _ "split"
    · rename_i h
      exact Option.not_isSome_iff_eq_none.mp h
  have hd_ne : (("download" : String) == "text") = false := by decide
  have hs_ne : (("split" : String) == "text") = false := by decide
  constructor
  · rw [synthesis_call_params]
    simp only [List.lookup, hd_ne, dictRemove]
    exact lookup_filter_none _ _ _ hdl2
  · rw [synthesis_call_params]
    simp only [List.lookup, hs_ne, dictRemove]
    exact lookup_filter_none _ _ _ hsp

theorem synthesis_params_isolated_witness :
    (synthesis_call_params
        [("download", PyVal.pybool true), ("split", PyVal.pystr "intelligent"),
         ("text", PyVal.pystr "Hello there."), ("speed", PyVal.pyfloat 1)]
        "Hello there.").lookup "download" = none
    ∧ (synthesis_call_params
        [("download", PyVal.pybool true), ("split", PyVal.pystr "intelligent"),
         ("text", PyVal.pystr "Hello there."), ("speed", PyVal.pyfloat 1)]
        "Hello there.").lookup "split" = none :=
  synthesis_params_isolated
    [("download", PyVal.pybool true), ("split", PyVal.pystr "intelligent"),
     ("text", PyVal.pystr "Hello there."), ("speed", PyVal.pyfloat 1)]
    "Hello there."

end StreamingXtts
